import Mathlib

/-!
Verification of the buspirate driver (jpoirier/buspirate).

The repository holds several near-duplicate variants of one Go driver for the
BusPirate binary wire protocol.  We embed the relevant functions over a
deterministic mock transport: the mock is a queue of outcomes for the
successive write / drain / read calls, plus a trace of the transport events
the driver issues.  Pure byte-level computations (command framing, clamping)
are embedded directly.  Go `float64` arithmetic is embedded as exact rational
arithmetic; every concrete duty value appearing in a theorem below
(−1, 0, 1/2, 1, 2) is exactly representable in binary floating point and the
corresponding product with 0x3E7F is computed exactly by `float64`, so the
rational embedding agrees with the source at those points.
-/

set_option autoImplicit false

namespace Buspirate

/-- Outcome of one transport write call: full success (`n = len`), a zero-byte
transfer without error (`n = 0`, `err = nil`), or an error (`err ≠ nil`,
modelled with `n = 0` since no caller uses `n` on error). -/
inductive WOut
  | ok
  | zero
  | err
deriving DecidableEq

/-- Transport events issued by the driver, in order.  A write call is recorded
with the bytes handed to the transport whether or not the call succeeds. -/
inductive Ev
  | write (bs : List Nat)
  | drain
  | flush
deriving DecidableEq

/-- Mock transport connection: queued outcomes for the successive write, drain
and read calls (exhausted queues default to: write ok, drain ok, read
timeout), plus the trace of events issued so far. -/
structure Conn where
  writes : List WOut
  drains : List Bool
  reads : List (Option (List Nat))
  trace : List Ev
deriving DecidableEq

/-- Symbolic error values, one per distinct error-return site of the embedded
functions.  The Go code returns `fmt.Errorf` strings; message wording differs
between the repository's variants, so sites are named, not spelt. -/
inductive Err
  | transport
  | writeBinaryModeCmd
  | couldNotEnterBinaryMode
  | leaveSpiWrite
  | lengthRange
  | sendCmdMode
  | byteSendReply
  | outCntRange
  | inCntRange
  | wrCmdWrite
  | outCntWrite
  | inCntWrite
  | outDataWrite
  | wrStatus
  | wrInData
  | wrOpFailed
  | pwmWrite
  | pwmReply
  | spiSpeedReply
  | unsupportedPlatform
  | invalidResetBaud
  | baudCmdWrite
  | baudCmdReply
  | baudReplyInvalid
  | brgCmdWrite
  | brgCmdReply
  | brgReplyInvalid
  | brgValWrite
  | brgValReplyErr
  | brgValReplyInvalid
deriving DecidableEq

/-- One write call (`Term.Write` / `Term.BlockingWrite`): returns the byte
count `n` (the full length on success, `0` otherwise) and the outcome. -/
def doWrite (c : Conn) (bs : List Nat) : (Nat × WOut) × Conn :=
  let w := c.writes.headD WOut.ok
  let n := match w with
    | WOut.ok => bs.length
    | _ => 0
  ((n, w), { c with writes := c.writes.tail, trace := c.trace ++ [Ev.write bs] })

/-- One `Term.Drain` call; `true` means no error. -/
def doDrain (c : Conn) : Bool × Conn :=
  (c.drains.headD true, { c with drains := c.drains.tail, trace := c.trace ++ [Ev.drain] })

/-- One `Term.Flush` call (discards buffered bytes; no result checked). -/
def doFlush (c : Conn) : Conn :=
  { c with trace := c.trace ++ [Ev.flush] }

/-- Overwrite the front of buffer `buf` with the delivered bytes `bs`
(a read delivers at most `buf.length` bytes; the rest of `buf` keeps its
previous contents, as with Go's `BlockingRead`). -/
def overlay (buf bs : List Nat) : List Nat :=
  bs.take buf.length ++ buf.drop (min bs.length buf.length)

/-- One `Term.BlockingRead` call into buffer `buf`: a queued `none` is a
timeout or error (`n = 0`, buffer untouched); a queued `some bs` delivers
`bs` truncated to the buffer length. -/
def doRead (c : Conn) (buf : List Nat) : (Nat × List Nat × Bool) × Conn :=
  match c.reads.headD none with
  | none => ((0, buf, false), { c with reads := c.reads.tail })
  | some bs => ((min bs.length buf.length, overlay buf bs, true), { c with reads := c.reads.tail })

/-- Value of the Go expression `return err` in a branch guarded by
`n == 0 || err != nil`: the transport error when there was one, and the nil
error (success!) when the write merely transferred zero bytes. -/
def errOf : WOut → Option Err
  | WOut.err => some Err.transport
  | _ => none

/-! ### clamp and SetPWM (buspirate.go) -/

/-- Go `clamp(v, lower, upper)`: two sequential in-place comparisons. -/
def clamp (v lower upper : ℚ) : ℚ :=
  let v1 := if v < lower then lower else v
  if upper < v1 then upper else v1

/-- The on-compare register computed by `SetPWM`:
`OCR := uint16(float64(0x3e7f) * duty)` after clamping.  The Go conversion
`uint16(f)` truncates toward zero; the clamped duty lies in `[0, 1]`, so the
product lies in `[0, 0x3e7f]` and truncation is the floor. -/
def pwmOCR (duty : ℚ) : ℕ :=
  (⌊(0x3e7f : ℚ) * clamp duty 0 1⌋).toNat

/-- The 6-byte command frame built by `SetPWM`:
`{0x12, 0x00, OCR >> 8, OCR, PRy >> 8, PRy}` with `PRy = 0x3e7f`. -/
def setPWMFrame (duty : ℚ) : List ℕ :=
  [0x12, 0x00, pwmOCR duty / 2 ^ 8, pwmOCR duty % 2 ^ 8, 0x3e, 0x7f]

/-- `SetPWM` over the mock transport: blocking-write the frame, drain, then
blocking-read one ack byte (source lines 577-592; lines 93-108 are identical
up to message wording). -/
def SetPWM (c : Conn) (duty : ℚ) : Option Err × Conn :=
  let ((n, w), c1) := doWrite c (setPWMFrame duty)
  if n = 0 ∨ w = WOut.err then (some Err.pwmWrite, c1)
  else
    let (d, c2) := doDrain c1
    if ¬d then (some Err.transport, c2)
    else
      let ((rn, _, rok), c3) := doRead c2 [(setPWMFrame duty).headD 0]
      if rn = 0 ∨ ¬rok then (some Err.pwmReply, c3)
      else (none, c3)

/-- Frame as the specification words it, with `round`: spec section 4.2 says
`OCR = round(PRy × duty)` for the clamped duty. -/
def pwmOCRRound (duty : ℚ) : ℕ :=
  (round ((0x3e7f : ℚ) * min (max duty 0) 1)).toNat

/-- Modelled from the spec: the 6-byte frame with the rounded OCR. -/
def pwmFrameSpecRound (duty : ℚ) : List ℕ :=
  [0x12, 0x00, pwmOCRRound duty / 2 ^ 8, pwmOCRRound duty % 2 ^ 8, 0x3e, 0x7f]

/-- The spec frame amended to truncation: OCR is the floor of
`0x3E7F × clamp(duty, 0, 1)`. -/
def pwmFrameSpecFloor (duty : ℚ) : List ℕ :=
  [0x12, 0x00, (⌊(0x3e7f : ℚ) * min (max duty 0) 1⌋).toNat / 2 ^ 8,
    (⌊(0x3e7f : ℚ) * min (max duty 0) 1⌋).toNat % 2 ^ 8, 0x3e, 0x7f]

theorem clamp_eq_min_max (d : ℚ) : clamp d 0 1 = min (max d 0) 1 := by
  simp only [clamp]
  rcases lt_or_le d 0 with h | h
  · rw [if_pos h, max_eq_right h.le, if_neg (by norm_num), min_eq_left (by norm_num)]
  · rw [if_neg (not_lt.mpr h), max_eq_left h]
    rcases lt_or_le 1 d with h1 | h1
    · rw [if_pos h1, min_eq_right h1.le]
    · rw [if_neg (not_lt.mpr h1), min_eq_left h1]

theorem setPWMFrame_eq_specFloor (d : ℚ) : setPWMFrame d = pwmFrameSpecFloor d := by
  simp [setPWMFrame, pwmFrameSpecFloor, pwmOCR, clamp_eq_min_max]

/-- The first transport event of `SetPWM` is the write of the command frame,
whatever the mock does afterwards. -/
theorem setPWM_trace (c : Conn) (duty : ℚ) :
    ∃ t, (SetPWM c duty).2.trace = c.trace ++ Ev.write (setPWMFrame duty) :: t := by
  unfold SetPWM doWrite doDrain doRead
  dsimp only
  cases hr : c.reads.headD none <;>
    simp only [hr] <;>
    split_ifs <;>
    solve
      | (refine ⟨[], ?_⟩; simp)
      | (refine ⟨[Ev.drain], ?_⟩; simp)

theorem pwmOCR_half : pwmOCR (1 / 2) = 7999 := by
  norm_num [pwmOCR, clamp]
  decide

theorem pwmOCRRound_half : pwmOCRRound (1 / 2) = 8000 := by
  norm_num [pwmOCRRound, round_eq]
  decide

theorem setPWMFrame_half : setPWMFrame (1 / 2) = [18, 0, 31, 63, 62, 127] := by
  simp only [setPWMFrame, pwmOCR_half]
  norm_num

theorem pwmFrameSpecRound_half : pwmFrameSpecRound (1 / 2) = [18, 0, 31, 64, 62, 127] := by
  simp only [pwmFrameSpecRound, pwmOCRRound_half]
  norm_num

/-- C1 counterexample: at duty `1/2` the frame the code writes is not the
frame the claim specifies (OCR rounded): the code truncates
`0x3E7F × 1/2 = 7999.5` to `7999 = 0x1F3F`, while rounding gives
`8000 = 0x1F40`; the frames differ in the OCR low byte (63 vs 64). -/
theorem setPWM_round_cex :
    ((SetPWM ⟨[], [], [], []⟩ (1 / 2)).2.trace).head? ≠
      some (Ev.write (pwmFrameSpecRound (1 / 2))) := by
  obtain ⟨t, ht⟩ := setPWM_trace ⟨[], [], [], []⟩ (1 / 2)
  rw [ht]
  simp only [List.nil_append, List.head?_cons, ne_eq, Option.some.injEq]
  rw [setPWMFrame_half, pwmFrameSpecRound_half]
  decide

/-- C1 (amended): for every duty, the first transport event of `SetPWM` is the
write of exactly the 6-byte frame `[0x12, 0x00, OCR-high, OCR-low, 0x3E, 0x7F]`
where `OCR = ⌊0x3E7F × clamp(duty, 0, 1)⌋` (truncation toward zero), encoded
as big-endian 16-bit fields. -/
theorem setPWM_frame_floor (duty : ℚ) (ws : List WOut) (ds : List Bool)
    (rs : List (Option (List Nat))) :
    ((SetPWM ⟨ws, ds, rs, []⟩ duty).2.trace).head? =
      some (Ev.write (pwmFrameSpecFloor duty)) := by
  obtain ⟨t, ht⟩ := setPWM_trace ⟨ws, ds, rs, []⟩ duty
  rw [ht, setPWMFrame_eq_specFloor]
  simp

/-- C7: the duty clamp is idempotent and monotonic, and the encoded `SetPWM`
command for duty −1 equals the command for duty 0, and the command for duty 2
equals the command for duty 1. -/
theorem clamp_props :
    (∀ d : ℚ, clamp (clamp d 0 1) 0 1 = clamp d 0 1) ∧
    (∀ d1 d2 : ℚ, d1 ≤ d2 → clamp d1 0 1 ≤ clamp d2 0 1) ∧
    setPWMFrame (-1) = setPWMFrame 0 ∧
    setPWMFrame 2 = setPWMFrame 1 := by
  refine ⟨fun d => ?_, fun d1 d2 h => ?_, ?_, ?_⟩
  · rw [clamp_eq_min_max, clamp_eq_min_max]
    have h0 : (0 : ℚ) ≤ min (max d 0) 1 := le_min (le_max_right d 0) zero_le_one
    rw [max_eq_left h0, min_eq_left (min_le_right (max d 0) 1)]
  · rw [clamp_eq_min_max, clamp_eq_min_max]
    exact min_le_min (max_le_max h le_rfl) le_rfl
  · rw [setPWMFrame_eq_specFloor, setPWMFrame_eq_specFloor]
    norm_num [pwmFrameSpecFloor]
  · rw [setPWMFrame_eq_specFloor, setPWMFrame_eq_specFloor]
    norm_num [pwmFrameSpecFloor]

/-- Witness for C7's monotonicity hypothesis at the concrete pair
`1/3 ≤ 1/2`. -/
theorem clamp_props_witness :
    (1 / 3 : ℚ) ≤ 1 / 2 ∧ clamp (1 / 3) 0 1 ≤ clamp (1 / 2) 0 1 :=
  ⟨by norm_num, clamp_props.2.1 (1 / 3) (1 / 2) (by norm_num)⟩

/-! ### enterBinaryMode (buspirate.go lines 504-524) -/

/-- The ASCII bytes of the banner `BBIO1`. -/
def bbio1 : List Nat := [66, 66, 73, 79, 49]

/-- The retry loop of `enterBinaryMode`: on each attempt write a single 0x00
(failure is fatal), drain (failure is fatal), then blocking-read into the
5-byte buffer with a 10 ms timeout; a zero read or read error continues, a
read equal to `BBIO1` succeeds, anything else also continues.  The buffer is
allocated once outside the loop, so partial reads persist across attempts. -/
def ebmLoop : Nat → List Nat → Conn → Option Err × Conn
  | 0, _, c => (some Err.couldNotEnterBinaryMode, c)
  | fuel + 1, buf, c =>
    let ((n, w), c1) := doWrite c [0]
    if n = 0 ∨ w = WOut.err then (some Err.writeBinaryModeCmd, c1)
    else
      let (d, c2) := doDrain c1
      if ¬d then (some Err.transport, c2)
      else
        let ((rn, buf2, rok), c3) := doRead c2 buf
        if rn = 0 ∨ ¬rok then ebmLoop fuel buf2 c3
        else if buf2 = bbio1 then (none, c3)
        else ebmLoop fuel buf2 c3

/-- `enterBinaryMode`: write three newline bytes (result ignored), flush both
buffers, then run the 30-attempt loop with a fresh 5-byte buffer. -/
def enterBinaryMode (c : Conn) : Option Err × Conn :=
  let (_, c1) := doWrite c [10, 10, 10]
  let c2 := doFlush c1
  ebmLoop 30 (List.replicate 5 0) c2

/-- The transport events of `m` unsuccessful-or-final attempts of the entry
loop: each attempt writes one 0x00 and drains. -/
def attemptTrace (m : Nat) : List Ev :=
  List.flatten (List.replicate m [Ev.write [0], Ev.drain])

/-- Number of single-0x00 writes in a trace. -/
def countW0 (t : List Ev) : Nat :=
  (t.filter fun e => e == Ev.write [0]).length

theorem attemptTrace_succ (m : Nat) :
    attemptTrace (m + 1) = Ev.write [0] :: Ev.drain :: attemptTrace m := by
  simp [attemptTrace, List.replicate_succ]

theorem countW0_append (a b : List Ev) : countW0 (a ++ b) = countW0 a + countW0 b := by
  simp [countW0, List.filter_append]

theorem countW0_attemptTrace (m : Nat) : countW0 (attemptTrace m) = m := by
  induction m with
  | zero => simp [attemptTrace, countW0]
  | succ m ih =>
    rw [attemptTrace_succ]
    simp only [countW0] at ih ⊢
    rw [List.filter_cons_of_pos (by decide), List.filter_cons_of_neg (by decide),
      List.length_cons, ih]

/-- Mock replying `BBIO1` on attempt `j + 1`:  `j` leading timeouts, then the
banner.  The loop succeeds, consuming `j + 1` write/drain pairs. -/
theorem ebmLoop_found : ∀ (j fuel : Nat) (t : List Ev) (rs : List (Option (List Nat))),
    j < fuel →
    ebmLoop fuel (List.replicate 5 0) ⟨[], [], List.replicate j none ++ some bbio1 :: rs, t⟩ =
      (none, ⟨[], [], rs, t ++ attemptTrace (j + 1)⟩) := by
  intro j
  induction j with
  | zero =>
    intro fuel t rs hf
    match fuel, hf with
    | fuel + 1, _ =>
      simp [ebmLoop, doWrite, doDrain, doRead, overlay, bbio1, attemptTrace]
  | succ j ih =>
    intro fuel t rs hf
    match fuel, hf with
    | fuel + 1, hf =>
      have hj : j < fuel := by omega
      have ih2 := ih fuel (t ++ [Ev.write [0], Ev.drain]) rs hj
      rw [show List.replicate (j + 1) none = none :: List.replicate j none from rfl]
      simp only [ebmLoop, doWrite, doDrain, doRead, List.headD, List.tail]
      simp
      rw [show ([0, 0, 0, 0, 0] : List Nat) = List.replicate 5 0 from rfl, ih2]
      simp [attemptTrace_succ]

/-- Mock never replying: the loop exhausts its fuel and fails. -/
theorem ebmLoop_timeout : ∀ (fuel : Nat) (buf : List Nat) (t : List Ev),
    ebmLoop fuel buf ⟨[], [], [], t⟩ =
      (some Err.couldNotEnterBinaryMode, ⟨[], [], [], t ++ attemptTrace fuel⟩) := by
  intro fuel
  induction fuel with
  | zero => intro buf t; simp [ebmLoop, attemptTrace]
  | succ fuel ih =>
    intro buf t
    simp only [ebmLoop, doWrite, doDrain, doRead, List.headD, List.tail]
    simp
    rw [ih buf (t ++ [Ev.write [0], Ev.drain])]
    simp [attemptTrace_succ]

/-- C2 (amended: the code writes three newline bytes, not ten): against a mock
whose writes and drains all succeed and whose reads time out until attempt `k`
delivers exactly `BBIO1` (1 ≤ k ≤ 30), `enterBinaryMode` succeeds after
exactly `k` single-0x00 writes, and its first two transport events are the
newline write `[10, 10, 10]` followed by the flush; against a mock that never
replies, all 30 attempts are used and the binary-mode-entry error is
returned. -/
theorem enterBinaryMode_attempts :
    (∀ k, 1 ≤ k → k ≤ 30 →
      (enterBinaryMode ⟨[], [], List.replicate (k - 1) none ++ [some bbio1], []⟩).1 = none ∧
      countW0 (enterBinaryMode ⟨[], [], List.replicate (k - 1) none ++ [some bbio1], []⟩).2.trace
        = k ∧
      (enterBinaryMode
          ⟨[], [], List.replicate (k - 1) none ++ [some bbio1], []⟩).2.trace.take 2 =
        [Ev.write [10, 10, 10], Ev.flush]) ∧
    (enterBinaryMode ⟨[], [], [], []⟩).1 = some Err.couldNotEnterBinaryMode := by
  constructor
  · intro k h1 h30
    have hs : enterBinaryMode ⟨[], [], List.replicate (k - 1) none ++ [some bbio1], []⟩ =
        ebmLoop 30 (List.replicate 5 0)
          ⟨[], [], List.replicate (k - 1) none ++ some bbio1 :: [],
            [Ev.write [10, 10, 10], Ev.flush]⟩ := rfl
    rw [hs, ebmLoop_found (k - 1) 30 _ [] (by omega)]
    have hk : k - 1 + 1 = k := by omega
    rw [hk]
    refine ⟨rfl, ?_, rfl⟩
    rw [show (none, (⟨[], [], [],
        [Ev.write [10, 10, 10], Ev.flush] ++ attemptTrace k⟩ : Conn)).2.trace =
        [Ev.write [10, 10, 10], Ev.flush] ++ attemptTrace k from rfl]
    rw [countW0_append, countW0_attemptTrace,
      show countW0 [Ev.write [10, 10, 10], Ev.flush] = 0 by decide]
    omega
  · have hs : enterBinaryMode ⟨[], [], [], []⟩ =
        ebmLoop 30 (List.replicate 5 0)
          ⟨[], [], [], [Ev.write [10, 10, 10], Ev.flush]⟩ := rfl
    rw [hs, ebmLoop_timeout]

/-- Witness for C2 at `k = 2`. -/
theorem enterBinaryMode_attempts_witness :
    (1 : Nat) ≤ 2 ∧ (2 : Nat) ≤ 30 ∧
    (enterBinaryMode ⟨[], [], List.replicate (2 - 1) none ++ [some bbio1], []⟩).1 = none ∧
    countW0 (enterBinaryMode ⟨[], [], List.replicate (2 - 1) none ++ [some bbio1], []⟩).2.trace
      = 2 ∧
    (enterBinaryMode ⟨[], [], List.replicate (2 - 1) none ++ [some bbio1], []⟩).2.trace.take 2 =
      [Ev.write [10, 10, 10], Ev.flush] := by
  refine ⟨by norm_num, by norm_num, ?_⟩
  have h := enterBinaryMode_attempts.1 2 (by norm_num) (by norm_num)
  exact ⟨h.1, h.2.1, h.2.2⟩

/-- C2 counterexample: the first transport event of `enterBinaryMode` is not a
write of ten newline bytes (it is the write of three newline bytes). -/
theorem enterBinaryMode_newlines_cex :
    (enterBinaryMode ⟨[], [], [some bbio1], []⟩).2.trace.head? ≠
      some (Ev.write (List.replicate 10 10)) := by
  decide

/-! ### SpiLeave (buspirate.go lines 148-154 and 631-637) -/

/-- First variant of `SpiLeave` (lines 148-154): the failed-write branch is
`return nil`, so the function always reports success; the drain result is
also discarded. -/
def SpiLeave_v1 (c : Conn) : Option Err × Conn :=
  let ((n, w), c1) := doWrite c [0]
  if n = 0 ∨ w = WOut.err then (none, c1)
  else
    let (_, c2) := doDrain c1
    (none, c2)

/-- Second variant of `SpiLeave` (lines 631-637): a failed or zero-byte write
returns an error; afterwards drain (result discarded) and succeed. -/
def SpiLeave (c : Conn) : Option Err × Conn :=
  let ((n, w), c1) := doWrite c [0]
  if n = 0 ∨ w = WOut.err then (some Err.leaveSpiWrite, c1)
  else
    let (_, c2) := doDrain c1
    (none, c2)

/-- C3: on a transport whose 0x00 write fails (error, or zero bytes
transferred), the first `SpiLeave` variant still returns success — its
failed-write branch reads `return nil` — while the second variant returns the
write error the claim (and the spec) describe. -/
theorem spiLeave_v1_swallows :
    (SpiLeave_v1 ⟨[WOut.err], [], [], []⟩).1 = none ∧
    (SpiLeave_v1 ⟨[WOut.zero], [], [], []⟩).1 = none ∧
    (SpiLeave ⟨[WOut.err], [], [], []⟩).1 = some Err.leaveSpiWrite ∧
    (SpiLeave ⟨[WOut.zero], [], [], []⟩).1 = some Err.leaveSpiWrite := by
  decide

/-! ### SpiSend (buspirate.go lines 281-316; lines 752-786 are identical up
to message wording) -/

/-- Per-byte loop of `SpiSend`: for each index, blocking-write `data[i:i+1]`
(a zero or failed write returns `(nil, err)` as in the source), drain, then
blocking-read one reply byte into `out[i:i+1]`.  The caller's `data` buffer is
threaded through and returned, so the embedding can state that the loop only
reads it: every read call targets `out`. -/
def spiSendLoop : Nat → Nat → List Nat → List Nat → Conn →
    (Option (List Nat) × Option Err) × List Nat × Conn
  | 0, _, dat, out, c => ((some out, none), dat, c)
  | fuel + 1, i, dat, out, c =>
    let ((n, w), c1) := doWrite c [dat.getD i 0]
    if n = 0 ∨ w = WOut.err then ((none, errOf w), dat, c1)
    else
      let (d, c2) := doDrain c1
      if ¬d then ((none, some Err.transport), dat, c2)
      else
        let ((rn, buf2, rok), c3) := doRead c2 [out.getD i 0]
        if rn = 0 ∨ ¬rok then ((none, some Err.byteSendReply), dat, c3)
        else spiSendLoop fuel (i + 1) dat (out.set i (buf2.headD 0)) c3

/-- `SpiSend`: reject lengths outside 1..16 before any transport call, write
the bulk-transfer opcode `0x10 | (l - 1)`, drain, read the one-byte ack
(must equal 0x01), then run the per-byte loop with `out := make([]byte, l)`. -/
def SpiSend (c : Conn) (dat : List Nat) :
    (Option (List Nat) × Option Err) × List Nat × Conn :=
  if dat.length < 1 ∨ 16 < dat.length then ((none, some Err.lengthRange), dat, c)
  else
    let b := 0x10 ||| (dat.length - 1)
    let ((n, w), c1) := doWrite c [b]
    if n = 0 ∨ w = WOut.err then ((none, errOf w), dat, c1)
    else
      let (d, c2) := doDrain c1
      if ¬d then ((none, some Err.transport), dat, c2)
      else
        let ((rn, buf2, rok), c3) := doRead c2 [b]
        if rn = 0 ∨ ¬rok ∨ buf2.headD 0 ≠ 1 then ((none, some Err.sendCmdMode), dat, c3)
        else spiSendLoop dat.length 0 dat (List.replicate dat.length 0) c3

/-- C5: an input of length 0, or longer than 16 bytes, is rejected with the
invalid-argument error before any transport call: the connection (its trace
and queues included) and the caller's buffer are returned untouched. -/
theorem spiSend_len_guard (c : Conn) (dat : List Nat)
    (h : dat.length = 0 ∨ 16 < dat.length) :
    SpiSend c dat = ((none, some Err.lengthRange), dat, c) := by
  have hc : dat.length < 1 ∨ 16 < dat.length := by omega
  unfold SpiSend
  rw [if_pos hc]

/-- Witness for C5 at lengths 0 and 17. -/
theorem spiSend_len_guard_witness :
    (([] : List Nat).length = 0 ∨ 16 < ([] : List Nat).length) ∧
    ((List.replicate 17 0 : List Nat).length = 0 ∨
      16 < (List.replicate 17 0 : List Nat).length) ∧
    SpiSend ⟨[], [], [], []⟩ [] = ((none, some Err.lengthRange), [], ⟨[], [], [], []⟩) ∧
    SpiSend ⟨[], [], [], []⟩ (List.replicate 17 0) =
      ((none, some Err.lengthRange), List.replicate 17 0, ⟨[], [], [], []⟩) :=
  ⟨Or.inl rfl, Or.inr (by rw [List.length_replicate]; norm_num),
    spiSend_len_guard _ _ (Or.inl rfl),
    spiSend_len_guard _ _ (Or.inr (by rw [List.length_replicate]; norm_num))⟩

theorem spiSendLoop_inv : ∀ (fuel i : Nat) (dat out : List Nat) (c : Conn) (bs : List Nat),
    (spiSendLoop fuel i dat out c).1.1 = some bs →
    (spiSendLoop fuel i dat out c).1.2 = none ∧ bs.length = out.length ∧
      (spiSendLoop fuel i dat out c).2.1 = dat := by
  intro fuel
  induction fuel with
  | zero =>
    intro i dat out c bs h
    simp only [spiSendLoop, Option.some.injEq] at h
    subst h
    exact ⟨rfl, rfl, rfl⟩
  | succ fuel ih =>
    intro i dat out c bs h
    unfold spiSendLoop at h ⊢
    dsimp only at h ⊢
    cases hr : c.reads.headD none <;>
      simp only [hr, doWrite, doDrain, doRead] at h ⊢ <;>
      split_ifs at h ⊢ <;>
      solve
        | simp at h
        | (obtain ⟨h1, h2, h3⟩ := ih _ _ _ _ _ h
           exact ⟨h1, by simpa using h2, h3⟩)

/-- C10: whenever `SpiSend` returns a byte slice, the returned error is nil,
the slice's length equals the input length, and the caller's input buffer
comes back unchanged — the slice itself is assembled from the transport's
reply bytes in the freshly allocated `out` buffer, never aliasing the
input. -/
theorem spiSend_echo (c : Conn) (dat bs : List Nat)
    (h : (SpiSend c dat).1.1 = some bs) :
    (SpiSend c dat).1.2 = none ∧ bs.length = dat.length ∧ (SpiSend c dat).2.1 = dat := by
  unfold SpiSend at h ⊢
  dsimp only at h ⊢
  cases hr : c.reads.headD none <;>
    simp only [hr, doWrite, doDrain, doRead] at h ⊢ <;>
    split_ifs at h ⊢ <;>
    solve
      | simp at h
      | (obtain ⟨h1, h2, h3⟩ := spiSendLoop_inv _ _ _ _ _ _ h
         exact ⟨h1, by simpa using h2, h3⟩)

/-- Witness for C10: a successful one-byte exchange (ack `[1]`, echo `[77]`)
returns the slice `[77]` of length 1, with the input `[5]` unchanged. -/
theorem spiSend_echo_witness :
    (SpiSend ⟨[], [], [some [1], some [77]], []⟩ [5]).1.2 = none ∧
    ([77] : List Nat).length = ([5] : List Nat).length ∧
    (SpiSend ⟨[], [], [some [1], some [77]], []⟩ [5]).2.1 = [5] :=
  spiSend_echo ⟨[], [], [some [1], some [77]], []⟩ [5] [77] (by decide)

/-! ### SpiWriteRead (buspirate.go lines 319-385 and 789-851) -/

/-- Second variant of `SpiWriteRead` (lines 789-851): range checks, command
byte 0x04, big-endian out-count and in-count, the payload as a single write,
a one-byte status read that must yield 1, and, when `inCnt > 0`, a final
blocking read that must deliver at least `inCnt` bytes. -/
def SpiWriteRead (c : Conn) (outData inData : List Nat) : Option Err × Conn :=
  if 4096 < outData.length then (some Err.outCntRange, c)
  else if 4096 < inData.length then (some Err.inCntRange, c)
  else
    let outCnt := outData.length
    let inCnt := inData.length
    let ((n1, w1), c1) := doWrite c [0x04]
    if n1 = 0 ∨ w1 = WOut.err then (some Err.wrCmdWrite, c1)
    else
      let (d1, c2) := doDrain c1
      if ¬d1 then (some Err.transport, c2)
      else
        let ((n2, w2), c3) := doWrite c2 [outCnt / 2 ^ 8 % 2 ^ 8, outCnt % 2 ^ 8]
        if n2 = 0 ∨ w2 = WOut.err then (some Err.outCntWrite, c3)
        else
          let (d2, c4) := doDrain c3
          if ¬d2 then (some Err.transport, c4)
          else
            let ((n3, w3), c5) := doWrite c4 [inCnt / 2 ^ 8 % 2 ^ 8, inCnt % 2 ^ 8]
            if n3 = 0 ∨ w3 = WOut.err then (some Err.inCntWrite, c5)
            else
              let (d3, c6) := doDrain c5
              if ¬d3 then (some Err.transport, c6)
              else
                let ((n4, w4), c7) := doWrite c6 outData
                if n4 = 0 ∨ w4 = WOut.err then (some Err.outDataWrite, c7)
                else
                  let (d4, c8) := doDrain c7
                  if ¬d4 then (some Err.transport, c8)
                  else
                    let ((rn, rbuf, rok), c9) := doRead c8 [inCnt / 2 ^ 8 % 2 ^ 8]
                    if rn = 0 ∨ ¬rok ∨ rbuf.headD 0 ≠ 1 then (some Err.wrStatus, c9)
                    else if 0 < inCnt then
                      let ((rn2, _, rok2), c10) := doRead c9 inData
                      if rn2 < inCnt ∨ ¬rok2 then (some Err.wrInData, c10)
                      else (none, c10)
                    else (none, c9)

/-- First variant of `SpiWriteRead` (lines 319-385): identical framing, but
every failed write executes `return err` (so a zero-byte write with a nil
error returns success), the status and in-data failures share one error, and
the final read must deliver exactly `inCnt` bytes. -/
def SpiWriteRead_v1 (c : Conn) (outData inData : List Nat) : Option Err × Conn :=
  if 4096 < outData.length then (some Err.outCntRange, c)
  else if 4096 < inData.length then (some Err.inCntRange, c)
  else
    let outCnt := outData.length
    let inCnt := inData.length
    let ((n1, w1), c1) := doWrite c [0x04]
    if n1 = 0 ∨ w1 = WOut.err then (errOf w1, c1)
    else
      let (d1, c2) := doDrain c1
      if ¬d1 then (some Err.transport, c2)
      else
        let ((n2, w2), c3) := doWrite c2 [outCnt / 2 ^ 8 % 2 ^ 8, outCnt % 2 ^ 8]
        if n2 = 0 ∨ w2 = WOut.err then (errOf w2, c3)
        else
          let (d2, c4) := doDrain c3
          if ¬d2 then (some Err.transport, c4)
          else
            let ((n3, w3), c5) := doWrite c4 [inCnt / 2 ^ 8 % 2 ^ 8, inCnt % 2 ^ 8]
            if n3 = 0 ∨ w3 = WOut.err then (errOf w3, c5)
            else
              let (d3, c6) := doDrain c5
              if ¬d3 then (some Err.transport, c6)
              else
                let ((n4, w4), c7) := doWrite c6 outData
                if n4 = 0 ∨ w4 = WOut.err then (errOf w4, c7)
                else
                  let (d4, c8) := doDrain c7
                  if ¬d4 then (some Err.transport, c8)
                  else
                    let ((rn, rbuf, rok), c9) := doRead c8 [inCnt / 2 ^ 8 % 2 ^ 8]
                    if rn = 0 ∨ ¬rok ∨ rbuf.headD 0 ≠ 1 then (some Err.wrOpFailed, c9)
                    else if 0 < inCnt then
                      let ((rn2, _, rok2), c10) := doRead c9 inData
                      if rn2 ≠ inCnt ∨ ¬rok2 then (some Err.wrOpFailed, c10)
                      else (none, c10)
                    else (none, c9)

/-- C4: against a transport where every write succeeds and a status byte 1 is
queued, `SpiWriteRead` with empty `outData` does not proceed past the payload
write: writing zero bytes succeeds with `n = 0`, which trips the
`n == 0 || err != nil` guard.  The second variant returns the out-data write
error; the first executes `return err` with a nil error — returning success
without ever reading the status byte, which stays in the mock's queue. -/
theorem spiWriteRead_empty_out_bug :
    (SpiWriteRead ⟨[], [], [some [1]], []⟩ [] []).1 = some Err.outDataWrite ∧
    (SpiWriteRead_v1 ⟨[], [], [some [1]], []⟩ [] []).1 = none ∧
    (SpiWriteRead_v1 ⟨[], [], [some [1]], []⟩ [] []).2.reads = [some [1]] := by
  decide

/-- C6: an `outData` or `inData` longer than 4096 bytes is rejected by both
variants with the corresponding invalid-argument error before any transport
call: the connection comes back identical, so zero bytes are written. -/
theorem spiWriteRead_len_guard (c : Conn) (outD inD : List Nat)
    (h : 4096 < outD.length ∨ 4096 < inD.length) :
    ((SpiWriteRead c outD inD).1 = some Err.outCntRange ∨
      (SpiWriteRead c outD inD).1 = some Err.inCntRange) ∧
    (SpiWriteRead c outD inD).2 = c ∧
    ((SpiWriteRead_v1 c outD inD).1 = some Err.outCntRange ∨
      (SpiWriteRead_v1 c outD inD).1 = some Err.inCntRange) ∧
    (SpiWriteRead_v1 c outD inD).2 = c := by
  by_cases ho : 4096 < outD.length
  · unfold SpiWriteRead SpiWriteRead_v1
    rw [if_pos ho, if_pos ho]
    exact ⟨Or.inl rfl, rfl, Or.inl rfl, rfl⟩
  · have hi : 4096 < inD.length := by tauto
    unfold SpiWriteRead SpiWriteRead_v1
    rw [if_neg ho, if_neg ho, if_pos hi, if_pos hi]
    exact ⟨Or.inr rfl, rfl, Or.inr rfl, rfl⟩

/-- Witness for C6 at `outData` of length 4097. -/
theorem spiWriteRead_len_guard_witness :
    (4096 < (List.replicate 4097 (0 : Nat)).length ∨ 4096 < ([] : List Nat).length) ∧
    ((SpiWriteRead ⟨[], [], [], []⟩ (List.replicate 4097 0) []).1 = some Err.outCntRange ∨
      (SpiWriteRead ⟨[], [], [], []⟩ (List.replicate 4097 0) []).1 = some Err.inCntRange) ∧
    (SpiWriteRead ⟨[], [], [], []⟩ (List.replicate 4097 0) []).2 = ⟨[], [], [], []⟩ ∧
    ((SpiWriteRead_v1 ⟨[], [], [], []⟩ (List.replicate 4097 0) []).1 = some Err.outCntRange ∨
      (SpiWriteRead_v1 ⟨[], [], [], []⟩ (List.replicate 4097 0) []).1 = some Err.inCntRange) ∧
    (SpiWriteRead_v1 ⟨[], [], [], []⟩ (List.replicate 4097 0) []).2 = ⟨[], [], [], []⟩ :=
  ⟨Or.inl (by rw [List.length_replicate]; norm_num),
    spiWriteRead_len_guard _ _ _ (Or.inl (by rw [List.length_replicate]; norm_num))⟩

/-! ### SpiSpeed (buspirate.go lines 226-241) -/

/-- `SpiSpeed`: the argument is a `uint8` (embedded as `speed % 256`); the
command byte is `0x60 | (speed & 0x07)`.  There is no range check. -/
def SpiSpeed (c : Conn) (speed : Nat) : Option Err × Conn :=
  let b := 0x60 ||| speed % 256 % 8
  let ((n, w), c1) := doWrite c [b]
  if n = 0 ∨ w = WOut.err then (errOf w, c1)
  else
    let (d, c2) := doDrain c1
    if ¬d then (some Err.transport, c2)
    else
      let ((rn, rbuf, rok), c3) := doRead c2 [b]
      if rn = 0 ∨ ¬rok ∨ rbuf.headD 0 ≠ 1 then (some Err.spiSpeedReply, c3)
      else (none, c3)

theorem spiSpeed_trace (c : Conn) (speed : Nat) :
    ∃ t, (SpiSpeed c speed).2.trace =
      c.trace ++ Ev.write [0x60 ||| speed % 256 % 8] :: t := by
  unfold SpiSpeed doWrite doDrain doRead
  dsimp only
  cases hr : c.reads.headD none <;>
    simp only [hr] <;>
    split_ifs <;>
    solve
      | (refine ⟨[], ?_⟩; simp)
      | (refine ⟨[Ev.drain], ?_⟩; simp)

/-- C9: for every speed value and every mock, `SpiSpeed` performs no range
check: its first transport event is always the write of the single command
byte `0x60 ||| (speed % 8)`, i.e. out-of-range speeds are silently truncated
to their low three bits rather than rejected. -/
theorem spiSpeed_lowbits (speed : Nat) (ws : List WOut) (ds : List Bool)
    (rs : List (Option (List Nat))) :
    ((SpiSpeed ⟨ws, ds, rs, []⟩ speed).2.trace).head? =
      some (Ev.write [0x60 ||| speed % 8]) := by
  obtain ⟨t, ht⟩ := spiSpeed_trace ⟨ws, ds, rs, []⟩ speed
  rw [ht, Nat.mod_mod_of_dvd speed (by norm_num)]
  simp

/-! ### resetBPBaudrate (buspirate.go lines 440-502) -/

/-- Host platform, as tested by the source's `runtime.GOOS` comparison. -/
inductive GOOS
  | windows
  | other
deriving DecidableEq

/-- ASCII bytes of a Lean string (all the console strings are ASCII). -/
def strBytes (s : String) : List Nat := s.data.map Char.toNat

def baudReplyBytes : List Nat := strBytes "Set serial port speed: (bps)\r\n 1. 300\r\n 2. 1200\r\n 3. 2400\r\n 4. 4800\r\n 5. 9600\r\n 6. 19200\r\n 7. 38400\r\n 8. 57600\r\n 9. 115200\r\n10. BRG raw value"

def expectBaudReplyBytes : List Nat := strBytes "10. BRG raw value"

def brgReplyBytes : List Nat := strBytes "Enter raw value for BRG"

def brgValReplyBytes : List Nat := strBytes "Adjust your terminal\r\nSpace to continue"

def expectBrgValReplyBytes : List Nat := strBytes "Space to continue"

/-- Go `strings.Contains` over byte lists. -/
def hasSub (hay sub : List Nat) : Bool :=
  (List.range (hay.length + 1)).any fun i => sub.isPrefixOf (hay.drop i)

/-- The `switch` at the head of `resetBPBaudrate`: maps the requested rate to
its BRG console token, rejecting 2000000 on Windows and any unlisted rate
(the source's `runtime.GOOS == "windows"` test). -/
def brgToken (goos : GOOS) (baudrate : Nat) : Except Err (List Nat) :=
  if baudrate = 500000 then Except.ok (strBytes "7\n")
  else if baudrate = 1000000 then Except.ok (strBytes "3\n")
  else if baudrate = 2000000 then
    if goos = GOOS.windows then Except.error Err.unsupportedPlatform
    else Except.ok (strBytes "1\n")
  else Except.error Err.invalidResetBaud

/-- `resetBPBaudrate`: resolve the BRG token (the platform check happens in
the switch, before any console write), then three write/drain/read round
trips, each requiring the reply buffer to contain the expected substring. -/
def resetBPBaudrate (goos : GOOS) (baudrate : Nat) (c : Conn) : Option Err × Conn :=
  match brgToken goos baudrate with
  | Except.error e => (some e, c)
  | Except.ok brg =>
    let ((n1, w1), c1) := doWrite c (strBytes "b\n")
    if n1 = 0 ∨ w1 = WOut.err then (some Err.baudCmdWrite, c1)
    else
      let (d1, c2) := doDrain c1
      if ¬d1 then (some Err.transport, c2)
      else
        let ((rn1, rb1, rok1), c3) :=
          doRead c2 (List.replicate (baudReplyBytes.length + 10) 0)
        if rn1 = 0 ∨ ¬rok1 then (some Err.baudCmdReply, c3)
        else if ¬hasSub rb1 expectBaudReplyBytes then (some Err.baudReplyInvalid, c3)
        else
          let ((n2, w2), c4) := doWrite c3 (strBytes "10\n")
          if n2 = 0 ∨ w2 = WOut.err then (some Err.brgCmdWrite, c4)
          else
            let (d2, c5) := doDrain c4
            if ¬d2 then (some Err.transport, c5)
            else
              let ((rn2, rb2, rok2), c6) :=
                doRead c5 (List.replicate (brgReplyBytes.length + 10) 0)
              if rn2 = 0 ∨ ¬rok2 then (some Err.brgCmdReply, c6)
              else if ¬hasSub rb2 brgReplyBytes then (some Err.brgReplyInvalid, c6)
              else
                let ((n3, w3), c7) := doWrite c6 brg
                if n3 = 0 ∨ w3 = WOut.err then (some Err.brgValWrite, c7)
                else
                  let (d3, c8) := doDrain c7
                  if ¬d3 then (some Err.transport, c8)
                  else
                    let ((rn3, rb3, rok3), c9) :=
                      doRead c8 (List.replicate (brgValReplyBytes.length + 10) 0)
                    if rn3 = 0 ∨ ¬rok3 then (some Err.brgValReplyErr, c9)
                    else if ¬hasSub rb3 expectBrgValReplyBytes then
                      (some Err.brgValReplyInvalid, c9)
                    else (none, c9)

/-- C8: requesting 2000000 baud on a Windows host fails with the
unsupported-platform error before any transport call: the connection state,
its trace included, is returned unchanged, so zero bytes are written. -/
theorem resetBPBaudrate_windows (c : Conn) :
    resetBPBaudrate GOOS.windows 2000000 c = (some Err.unsupportedPlatform, c) := rfl

end Buspirate
